import Mathlib

/-!
# Verification of the LED-wall firmware command engine

Shallow embedding of `src/main.cpp` (ESP32 LED strip firmware): the
frame codec (`hexNibble`, `parseHexByte`, `applyHexFrame`), the command
engine (`runCommand`), the serial line reader (`readLine`) and the
Wi-Fi connectivity supervisor (`connectWifiStation`,
`maintainWifiConnection`, `loop`), followed by theorems about the
specification's claims.

The strip length `NUM_LEDS` and the line cap `MAX_COMMAND_CHARS` are
compile-time `#define`s in the source; the embedding carries them as
parameters (`DevState.numLeds`, the `max` argument of `readLine`) and
instantiates them at the source's values (35 and 8192) where a claim
fixes them.
-/

namespace SmartWall

/-- One pixel: three 8-bit channels, as stored in the `CRGB leds[]` buffer. -/
structure RGB where
  r : Nat
  g : Nat
  b : Nat
deriving DecidableEq, Repr

/-- Device state: the LED buffer `leds[]`, the global FastLED brightness,
and `strip`, the contents last pushed to the physical strip by
`FastLED.show()` (the "flushed output").  `numLeds` embeds the
compile-time `NUM_LEDS`. -/
structure DevState where
  numLeds : Nat
  leds : List RGB
  brightness : Nat
  strip : List RGB
deriving DecidableEq, Repr

/-- `FastLED.show()`: push the buffer to the physical strip. -/
def flush (st : DevState) : DevState := { st with strip := st.leds }

/-- C `isspace`: space (32) or horizontal tab through carriage return (9-13);
used by Arduino `String::trim` and by `sscanf`'s `%d`. -/
def isSpc (c : Char) : Bool :=
  decide (c.toNat = 32 ∨ (9 ≤ c.toNat ∧ c.toNat ≤ 13))

/-- C `toupper` on ASCII, as applied per character by Arduino
`String::toUpperCase`: codes 97-122 (`a`-`z`) shift down by 32. -/
def upChar (c : Char) : Char :=
  if 97 ≤ c.toNat ∧ c.toNat ≤ 122 then Char.ofNat (c.toNat - 32) else c

/-- Arduino `String::trim`: drop `isspace` characters from both ends. -/
def trimL (l : List Char) : List Char :=
  ((l.dropWhile isSpc).reverse.dropWhile isSpc).reverse

/-- `clamp8` from main.cpp:50 - clamp an `int` into `[0,255]`. -/
def clamp8 (v : Int) : Int :=
  if v < 0 then 0 else if v > 255 then 255 else v

/-- `hexNibble` from main.cpp:56 - value of one hex digit or `-1`.
The numeric bounds are the ASCII codes of the compared character
literals: 48-57 is `0`-`9`, 65-70 is `A`-`F`, 97-102 is `a`-`f`. -/
def hexNibble (c : Char) : Int :=
  if 48 ≤ c.toNat ∧ c.toNat ≤ 57 then (c.toNat : Int) - 48
  else if 65 ≤ c.toNat ∧ c.toNat ≤ 70 then 10 + ((c.toNat : Int) - 65)
  else if 97 ≤ c.toNat ∧ c.toNat ≤ 102 then 10 + ((c.toNat : Int) - 97)
  else -1

/-- `parseHexByte` from main.cpp:63 - two hex digits at `offset` into a
byte, `none` on a bounds or digit failure (the C version returns `false`
and leaves the out-parameter unset). -/
def parseHexByte (s : List Char) (offset : Nat) : Option Nat :=
  if s.length ≤ offset + 1 then none
  else
    let hi := hexNibble (s.getD offset ' ')
    let lo := hexNibble (s.getD (offset + 1) ' ')
    if hi < 0 ∨ lo < 0 then none
    else some (hi.toNat <<< 4 ||| lo.toNat)

/-- The `for` loop of `applyHexFrame` (main.cpp:77-84): decode and write
pixel `i`, `i+1`, ... (`fuel` pixels remain).  On a parse failure it
stops and reports `false` with the pixels written so far kept - the
source writes `leds[i]` as it decodes. -/
def applyLoop (hex : List Char) (leds : List RGB) (i fuel : Nat) : Bool × List RGB :=
  match fuel with
  | 0 => (true, leds)
  | fuel + 1 =>
    let o := i * 6
    match parseHexByte hex o, parseHexByte hex (o + 2), parseHexByte hex (o + 4) with
    | some r, some g, some b => applyLoop hex (leds.set i ⟨r, g, b⟩) (i + 1) fuel
    | _, _, _ => (false, leds)

/-- `applyHexFrame` from main.cpp:72 - reject a payload whose length is
not `NUM_LEDS * 6`, otherwise decode pixel by pixel; `FastLED.show()`
only on full success. -/
def applyHexFrame (hex : List Char) (st : DevState) : Bool × DevState :=
  if hex.length ≠ st.numLeds * 6 then (false, st)
  else
    match applyLoop hex st.leds 0 st.numLeds with
    | (true, l) => (true, flush { st with leds := l })
    | (false, l) => (false, { st with leds := l })

/-- Digit run of `sscanf`'s `%d`: accumulate decimal digits, stop at the
first non-digit. -/
def scanDigits (cs : List Char) (acc : Nat) : Nat × List Char :=
  match cs with
  | [] => (acc, [])
  | c :: rest =>
    if 48 ≤ c.toNat ∧ c.toNat ≤ 57 then scanDigits rest (acc * 10 + (c.toNat - 48))
    else (acc, c :: rest)

/-- One `%d` conversion of `sscanf`: skip `isspace`, an optional sign,
then at least one decimal digit; `none` on a matching failure. -/
def scanIntFrom (cs : List Char) : Option (Int × List Char) :=
  match cs.dropWhile isSpc with
  | '-' :: c :: rest =>
    if 48 ≤ c.toNat ∧ c.toNat ≤ 57 then
      let p := scanDigits rest (c.toNat - 48)
      some (-(p.1 : Int), p.2)
    else none
  | '+' :: c :: rest =>
    if 48 ≤ c.toNat ∧ c.toNat ≤ 57 then
      let p := scanDigits rest (c.toNat - 48)
      some ((p.1 : Int), p.2)
    else none
  | c :: rest =>
    if 48 ≤ c.toNat ∧ c.toNat ≤ 57 then
      let p := scanDigits rest (c.toNat - 48)
      some ((p.1 : Int), p.2)
    else none
  | [] => none

/-- `n` consecutive `%d` conversions (the whitespace between them is
absorbed by `%d` itself); `some` exactly when `sscanf` would report
count `n`. -/
def scanList : Nat → List Char → Option (List Int × List Char)
  | 0, cs => some ([], cs)
  | n + 1, cs =>
    match scanIntFrom cs with
    | some (v, r) =>
      match scanList n r with
      | some (vs, r2) => some (v :: vs, r2)
      | none => none
    | none => none

/-- Boolean list-prefix test, Arduino `String::startsWith`. -/
def startsWithL : List Char → List Char → Bool
  | [], _ => true
  | _ :: _, [] => false
  | p :: ps, c :: cs => p = c && startsWithL ps cs

/-- The `if`/`else if` chain of `runCommand` (main.cpp:100-164), applied
to the already trimmed and upper-cased command line. -/
def dispatchCmd (st : DevState) (cmd : List Char) : DevState × String :=
  if cmd = "PING".data then (st, "OK")
  else if cmd = "INFO".data then
    (st, "OK NUM_LEDS " ++ toString st.numLeds ++ " BRIGHT " ++ toString st.brightness)
  else if startsWithL "BRIGHT ".data cmd then
    match scanList 1 (cmd.drop 6) with
    | some ([b], _) => (flush { st with brightness := (clamp8 b).toNat }, "OK")
    | _ => (st, "ERR usage: BRIGHT <0-255>")
  else if startsWithL "FILL ".data cmd then
    match scanList 3 (cmd.drop 4) with
    | some ([r, g, b], _) =>
      (flush { st with
        leds := List.replicate st.numLeds ⟨(clamp8 r).toNat, (clamp8 g).toNat, (clamp8 b).toNat⟩ },
       "OK")
    | _ => (st, "ERR usage: FILL <r> <g> <b>")
  else if startsWithL "SET ".data cmd then
    match scanList 4 (cmd.drop 3) with
    | some ([i, r, g, b], _) =>
      if i < 0 ∨ (st.numLeds : Int) ≤ i then (st, "ERR index out of range")
      else
        (flush { st with
          leds := st.leds.set i.toNat ⟨(clamp8 r).toNat, (clamp8 g).toNat, (clamp8 b).toNat⟩ },
         "OK")
    | _ => (st, "ERR usage: SET <index> <r> <g> <b>")
  else if startsWithL "SETN ".data cmd then
    match scanList 4 (cmd.drop 4) with
    | some ([i, r, g, b], _) =>
      if i < 0 ∨ (st.numLeds : Int) ≤ i then (st, "ERR index out of range")
      else
        ({ st with
          leds := st.leds.set i.toNat ⟨(clamp8 r).toNat, (clamp8 g).toNat, (clamp8 b).toNat⟩ },
         "OK")
    | _ => (st, "ERR usage: SETN <index> <r> <g> <b>")
  else if cmd = "SHOW".data then (flush st, "OK")
  else if cmd = "CLEAR".data then
    (flush { st with leds := List.replicate st.numLeds ⟨0, 0, 0⟩ }, "OK")
  else if startsWithL "FRAME ".data cmd then
    match applyHexFrame (trimL (cmd.drop 6)) st with
    | (true, st2) => (st2, "OK")
    | (false, st2) => (st2, "ERR usage: FRAME <hex rgb payload of length NUM_LEDS*6>")
  else (st, "ERR unknown command")

/-- `cmd.trim(); cmd.toUpperCase();` (main.cpp:97-98). -/
def procL (l : List Char) : List Char := (trimL l).map upChar

/-- `runCommand` from main.cpp:95 on a character list. -/
def runCommandL (st : DevState) (raw : List Char) : DevState × String :=
  dispatchCmd st (procL raw)

/-- `runCommand` from main.cpp:95: trim, upper-case, dispatch. -/
def runCommand (st : DevState) (raw : String) : DevState × String :=
  runCommandL st raw.data

/-- The state after `setup()` (main.cpp:240-242): `NUM_LEDS = 35` black
pixels, `DEFAULT_BRIGHTNESS 32`, and `FastLED.clear(true)` has flushed. -/
def st0 : DevState :=
  { numLeds := 35
    leds := List.replicate 35 ⟨0, 0, 0⟩
    brightness := 32
    strip := List.replicate 35 ⟨0, 0, 0⟩ }

/-- The `server.on("/frame", HTTP_POST)` handler (main.cpp:267-283) once
a body is present: trim the raw body, `applyHexFrame`, answer `OK` or
`ERR invalid frame payload`.  (The HTTP status code, 200 or 400, tracks
the same distinction and is not modelled separately.) -/
def handleFramePost (st : DevState) (body : List Char) : DevState × String :=
  match applyHexFrame (trimL body) st with
  | (true, st2) => (st2, "OK")
  | (false, st2) => (st2, "ERR invalid frame payload")

/-- `MAX_COMMAND_CHARS` from main.cpp:37. -/
def MAX_COMMAND_CHARS : Nat := 8192

/-- `readLine` from main.cpp:167, with the caller's reset of `line`
after a completed command (main.cpp:322) folded in.  Arguments: the line
cap (`MAX_COMMAND_CHARS`), the accumulated buffer, the pending serial
bytes.  Returns (completed line if a newline arrived, buffer afterwards,
bytes left in the serial queue, `ERR` messages printed by `replyErr`).
`\r` is skipped; `\n` completes the trimmed line; any other byte is
appended, and a buffer that grows past the cap is cleared with a
`line too long` error - after which reading simply continues. -/
def readLine (max : Nat) (buf : List Char) : List Char → Option (List Char) × List Char × List Char × List String
  | [] => (none, buf, [], [])
  | c :: rest =>
    if c = '\r' then readLine max buf rest
    else if c = '\n' then (some (trimL buf), [], rest, [])
    else
      let buf2 := buf ++ [c]
      if max < buf2.length then
        let r := readLine max [] rest
        (r.1, r.2.1, r.2.2.1, "line too long" :: r.2.2.2)
      else readLine max buf2 rest

/-- The connectivity-relevant globals: whether `WiFi.begin` has ever been
issued, whether the station is currently associated (`WiFi.status() ==
WL_CONNECTED`), and `httpServerStarted` (main.cpp:47).  `begun = false`,
`connected = false`, `httpStarted = false` is the supervisor's
Disconnected state with the network transport unreachable. -/
structure NetState where
  begun : Bool
  connected : Bool
  httpStarted : Bool
deriving DecidableEq, Repr

/-- Modelled driver behaviour of the external `WiFi` library: between
loop iterations the link may go up or down (`oracle`), but a station
that was never asked to associate (`begun = false`) never reports
`WL_CONNECTED`. -/
def envStep (oracle : Bool) (ns : NetState) : NetState :=
  { ns with connected := ns.begun && oracle }

/-- `connectWifiStation` from main.cpp:184, abstracting the bounded
association wait into `oracle` (did the link come up within the
timeout).  With an empty SSID it returns `false` immediately and never
calls `WiFi.begin`. -/
def connectWifiStation (ssid : List Char) (oracle : Bool) (ns : NetState) : Bool × NetState :=
  if ssid.length = 0 then (false, ns)
  else
    let ns2 : NetState := { ns with begun := true, connected := oracle }
    (ns2.connected, ns2)

/-- `maintainWifiConnection` from main.cpp:216: nothing without
credentials, nothing while connected, otherwise re-issue `WiFi.begin`
when the retry interval has elapsed (`retryDue`). -/
def maintainWifiConnection (ssid : List Char) (retryDue : Bool) (ns : NetState) : NetState :=
  if ssid.length = 0 then ns
  else if ns.connected then ns
  else if retryDue then { ns with begun := true } else ns

/-- The environment of one `loop()` iteration: the driver's link oracle,
whether the Wi-Fi retry interval has elapsed, and the completed serial
line delivered by `readLine` this iteration, if any. -/
structure LoopIn where
  oracle : Bool
  retryDue : Bool
  lineIn : Option (List Char)

/-- One iteration of `loop()` (main.cpp:301-323): maintain Wi-Fi, start
the HTTP server once the station connects, then handle a completed
serial line through `runCommand`. -/
def loopIter (ssid : List Char) (inp : LoopIn) (ns : NetState) (st : DevState) :
    NetState × DevState × Option String :=
  let ns1 := envStep inp.oracle ns
  let ns2 := maintainWifiConnection ssid inp.retryDue ns1
  let ns3 := if !ns2.httpStarted && ns2.connected then { ns2 with httpStarted := true } else ns2
  match inp.lineIn with
  | some l =>
    let r := runCommandL st l
    (ns3, r.1, some r.2)
  | none => (ns3, st, none)

/-- Iterated `loop()`: thread the connectivity and device state through a
list of iterations, collecting the serial responses. -/
def runLoop (ssid : List Char) : List LoopIn → NetState → DevState → NetState × DevState × List String
  | [], ns, st => (ns, st, [])
  | inp :: inps, ns, st =>
    match loopIter ssid inp ns st with
    | (ns2, st2, out) =>
      let r := runLoop ssid inps ns2 st2
      (r.1, r.2.1, out.toList ++ r.2.2)

/-- Reference semantics of the serial transport alone: run each line
through `runCommand` in order, collecting the responses. -/
def serialFold : DevState → List (List Char) → DevState × List String
  | st, [] => (st, [])
  | st, l :: ls =>
    let r := runCommandL st l
    let rest := serialFold r.1 ls
    (rest.1, r.2 :: rest.2)

/-- The globals before `setup()` runs: nothing begun, nothing connected,
HTTP server not started (main.cpp:47-48). -/
def netInit : NetState := ⟨false, false, false⟩

/-- Right trim alone: drop `isspace` characters from the end. -/
def rtrimL (l : List Char) : List Char := (l.reverse.dropWhile isSpc).reverse

/-- A three-LED device state, for the spec's `ledCount = 3` scenarios. -/
def stC4 : DevState :=
  { numLeds := 3
    leds := List.replicate 3 ⟨0, 0, 0⟩
    brightness := 32
    strip := List.replicate 3 ⟨0, 0, 0⟩ }

/-- A `FRAME` line of correct length (`35 * 6 = 210`) whose first pixel
group is valid hex and whose second group is not. -/
def badFrame : String := "FRAME 010203" ++ String.mk (List.replicate 204 'Z')

end SmartWall

namespace SmartWall

/-! ## Helper lemmas -/

theorem trimL_eq_rtrimL_dropWhile (l : List Char) :
    trimL l = rtrimL (l.dropWhile isSpc) := rfl

theorem dropWhile_isSpc_idem (l : List Char) :
    (l.dropWhile isSpc).dropWhile isSpc = l.dropWhile isSpc := by
  induction l with
  | nil => rfl
  | cons a t ih =>
    by_cases h : isSpc a
    · simp [List.dropWhile_cons, h, ih]
    · simp [List.dropWhile_cons, h]

theorem rtrimL_cons (a : Char) (t : List Char) :
    rtrimL (a :: t) = if isSpc a = true ∧ rtrimL t = [] then [] else a :: rtrimL t := by
  have hrt : rtrimL t = (t.reverse.dropWhile isSpc).reverse := rfl
  by_cases ht : t.reverse.dropWhile isSpc = []
  · have ht2 : rtrimL t = [] := by rw [hrt, ht]; rfl
    by_cases ha : isSpc a
    · rw [if_pos ⟨ha, ht2⟩]
      show ((a :: t).reverse.dropWhile isSpc).reverse = []
      rw [List.reverse_cons, List.dropWhile_append, ht]
      simp [List.dropWhile, ha]
    · rw [if_neg (fun hc => ha hc.1)]
      show ((a :: t).reverse.dropWhile isSpc).reverse = a :: rtrimL t
      rw [List.reverse_cons, List.dropWhile_append, ht, ht2]
      simp [List.dropWhile, ha]
  · have ht2 : rtrimL t ≠ [] := by
      rw [hrt]
      simpa using ht
    rw [if_neg (fun hc => ht2 hc.2)]
    show ((a :: t).reverse.dropWhile isSpc).reverse = a :: rtrimL t
    rw [List.reverse_cons, List.dropWhile_append]
    have hne : (t.reverse.dropWhile isSpc).isEmpty = false := by
      simpa [List.isEmpty_iff] using ht
    rw [hne]
    simp [hrt]

theorem rtrimL_idem (l : List Char) : rtrimL (rtrimL l) = rtrimL l := by
  unfold rtrimL
  rw [List.reverse_reverse, dropWhile_isSpc_idem]

theorem dropWhile_rtrimL_comm (l : List Char) :
    (rtrimL l).dropWhile isSpc = rtrimL (l.dropWhile isSpc) := by
  induction l with
  | nil => rfl
  | cons a t ih =>
    rw [rtrimL_cons]
    by_cases ha : isSpc a
    · by_cases ht : rtrimL t = []
      · rw [if_pos ⟨ha, ht⟩]
        rw [show (a :: t).dropWhile isSpc = t.dropWhile isSpc by simp [List.dropWhile_cons, ha]]
        rw [← ih, ht]
      · rw [if_neg (fun hc => ht hc.2)]
        rw [show (a :: t).dropWhile isSpc = t.dropWhile isSpc by simp [List.dropWhile_cons, ha]]
        rw [show (a :: rtrimL t).dropWhile isSpc = (rtrimL t).dropWhile isSpc by
          simp [List.dropWhile_cons, ha]]
        exact ih
    · rw [if_neg (fun hc => ha hc.1)]
      rw [show (a :: t).dropWhile isSpc = a :: t by simp [List.dropWhile_cons, ha]]
      rw [show (a :: rtrimL t).dropWhile isSpc = a :: rtrimL t by simp [List.dropWhile_cons, ha]]
      rw [rtrimL_cons]
      by_cases ht : rtrimL t = []
      · rw [if_neg (fun hc => ha hc.1)]
      · rw [if_neg (fun hc => ha hc.1)]

theorem trimL_rtrimL (l : List Char) : trimL (rtrimL l) = trimL l := by
  show rtrimL ((rtrimL l).dropWhile isSpc) = rtrimL (l.dropWhile isSpc)
  rw [dropWhile_rtrimL_comm, rtrimL_idem]

theorem char_toNat_ofNat {n : Nat} (h : n < 55296) : (Char.ofNat n).toNat = n := by
  unfold Char.ofNat
  rw [dif_pos (Or.inl h)]
  rfl

theorem upChar_toNat (c : Char) :
    (upChar c).toNat = if 97 ≤ c.toNat ∧ c.toNat ≤ 122 then c.toNat - 32 else c.toNat := by
  unfold upChar
  by_cases h : 97 ≤ c.toNat ∧ c.toNat ≤ 122
  · rw [if_pos h, if_pos h, char_toNat_ofNat (by omega)]
  · rw [if_neg h, if_neg h]

theorem hexNibble_upChar (c : Char) : hexNibble (upChar c) = hexNibble c := by
  unfold hexNibble
  rw [upChar_toNat]
  by_cases h : 97 ≤ c.toNat ∧ c.toNat ≤ 122
  · rw [if_pos h]
    split_ifs <;> omega
  · rw [if_neg h]

theorem isSpc_upChar (c : Char) : isSpc (upChar c) = isSpc c := by
  unfold isSpc
  rw [upChar_toNat]
  by_cases h : 97 ≤ c.toNat ∧ c.toNat ≤ 122
  · rw [if_pos h, decide_eq_decide]
    omega
  · rw [if_neg h]

theorem isSpc_comp_upChar : (isSpc ∘ upChar) = isSpc :=
  funext fun c => isSpc_upChar c

theorem dropWhile_map_upChar (l : List Char) :
    (l.map upChar).dropWhile isSpc = (l.dropWhile isSpc).map upChar := by
  rw [List.dropWhile_map, isSpc_comp_upChar]

theorem rtrimL_map_upChar (l : List Char) :
    rtrimL (l.map upChar) = (rtrimL l).map upChar := by
  unfold rtrimL
  rw [← List.map_reverse, dropWhile_map_upChar, List.map_reverse]

theorem trimL_map_upChar (l : List Char) :
    trimL (l.map upChar) = (trimL l).map upChar := by
  rw [trimL_eq_rtrimL_dropWhile, trimL_eq_rtrimL_dropWhile, dropWhile_map_upChar,
    rtrimL_map_upChar]

theorem runCommand_eq_dispatch (st : DevState) (raw : String) :
    runCommand st raw = dispatchCmd st (procL raw.data) := rfl

theorem dispatch_bright_none (st : DevState) (w : List Char)
    (h : scanList 1 (' ' :: w) = none) :
    dispatchCmd st ("BRIGHT ".data ++ w) = (st, "ERR usage: BRIGHT <0-255>") := by
  have e : dispatchCmd st ("BRIGHT ".data ++ w) =
      (match scanList 1 (' ' :: w) with
       | some ([b], _) => (flush { st with brightness := (clamp8 b).toNat }, "OK")
       | _ => (st, "ERR usage: BRIGHT <0-255>")) := rfl
  rw [e, h]

theorem dispatch_fill_none (st : DevState) (w : List Char)
    (h : scanList 3 (' ' :: w) = none) :
    dispatchCmd st ("FILL ".data ++ w) = (st, "ERR usage: FILL <r> <g> <b>") := by
  have e : dispatchCmd st ("FILL ".data ++ w) =
      (match scanList 3 (' ' :: w) with
       | some ([r, g, b], _) =>
         (flush { st with
           leds := List.replicate st.numLeds
             ⟨(clamp8 r).toNat, (clamp8 g).toNat, (clamp8 b).toNat⟩ }, "OK")
       | _ => (st, "ERR usage: FILL <r> <g> <b>")) := rfl
  rw [e, h]

theorem dispatch_set_none (st : DevState) (w : List Char)
    (h : scanList 4 (' ' :: w) = none) :
    dispatchCmd st ("SET ".data ++ w) = (st, "ERR usage: SET <index> <r> <g> <b>") := by
  have e : dispatchCmd st ("SET ".data ++ w) =
      (match scanList 4 (' ' :: w) with
       | some ([i, r, g, b], _) =>
         if i < 0 ∨ (st.numLeds : Int) ≤ i then (st, "ERR index out of range")
         else
           (flush { st with
             leds := st.leds.set i.toNat
               ⟨(clamp8 r).toNat, (clamp8 g).toNat, (clamp8 b).toNat⟩ }, "OK")
       | _ => (st, "ERR usage: SET <index> <r> <g> <b>")) := rfl
  rw [e, h]

theorem dispatch_setn_none (st : DevState) (w : List Char)
    (h : scanList 4 (' ' :: w) = none) :
    dispatchCmd st ("SETN ".data ++ w) = (st, "ERR usage: SETN <index> <r> <g> <b>") := by
  have e : dispatchCmd st ("SETN ".data ++ w) =
      (match scanList 4 (' ' :: w) with
       | some ([i, r, g, b], _) =>
         if i < 0 ∨ (st.numLeds : Int) ≤ i then (st, "ERR index out of range")
         else
           ({ st with
             leds := st.leds.set i.toNat
               ⟨(clamp8 r).toNat, (clamp8 g).toNat, (clamp8 b).toNat⟩ }, "OK")
       | _ => (st, "ERR usage: SETN <index> <r> <g> <b>")) := rfl
  rw [e, h]

theorem dispatch_set_some (st : DevState) (w : List Char) (i r g b : Int) (rest : List Char)
    (h : scanList 4 (' ' :: w) = some ([i, r, g, b], rest)) :
    dispatchCmd st ("SET ".data ++ w) =
      (if i < 0 ∨ (st.numLeds : Int) ≤ i then (st, "ERR index out of range")
       else
         (flush { st with
           leds := st.leds.set i.toNat
             ⟨(clamp8 r).toNat, (clamp8 g).toNat, (clamp8 b).toNat⟩ }, "OK")) := by
  have e : dispatchCmd st ("SET ".data ++ w) =
      (match scanList 4 (' ' :: w) with
       | some ([i, r, g, b], _) =>
         if i < 0 ∨ (st.numLeds : Int) ≤ i then (st, "ERR index out of range")
         else
           (flush { st with
             leds := st.leds.set i.toNat
               ⟨(clamp8 r).toNat, (clamp8 g).toNat, (clamp8 b).toNat⟩ }, "OK")
       | _ => (st, "ERR usage: SET <index> <r> <g> <b>")) := rfl
  rw [e, h]

theorem dispatch_setn_some (st : DevState) (w : List Char) (i r g b : Int) (rest : List Char)
    (h : scanList 4 (' ' :: w) = some ([i, r, g, b], rest)) :
    dispatchCmd st ("SETN ".data ++ w) =
      (if i < 0 ∨ (st.numLeds : Int) ≤ i then (st, "ERR index out of range")
       else
         ({ st with
           leds := st.leds.set i.toNat
             ⟨(clamp8 r).toNat, (clamp8 g).toNat, (clamp8 b).toNat⟩ }, "OK")) := by
  have e : dispatchCmd st ("SETN ".data ++ w) =
      (match scanList 4 (' ' :: w) with
       | some ([i, r, g, b], _) =>
         if i < 0 ∨ (st.numLeds : Int) ≤ i then (st, "ERR index out of range")
         else
           ({ st with
             leds := st.leds.set i.toNat
               ⟨(clamp8 r).toNat, (clamp8 g).toNat, (clamp8 b).toNat⟩ }, "OK")
       | _ => (st, "ERR usage: SETN <index> <r> <g> <b>")) := rfl
  rw [e, h]

theorem dispatch_frame (st : DevState) (w : List Char) :
    dispatchCmd st ("FRAME ".data ++ w) =
      (match applyHexFrame (trimL w) st with
       | (true, st2) => (st2, "OK")
       | (false, st2) => (st2, "ERR usage: FRAME <hex rgb payload of length NUM_LEDS*6>")) :=
  rfl

theorem dispatch_show (st : DevState) :
    dispatchCmd st "SHOW".data = (flush st, "OK") := rfl

theorem applyHexFrame_false (hex : List Char) (st : DevState)
    (h : (applyHexFrame hex st).1 = false) :
    (applyHexFrame hex st).2.strip = st.strip
    ∧ (applyHexFrame hex st).2.brightness = st.brightness
    ∧ (hex.length ≠ st.numLeds * 6 → (applyHexFrame hex st).2 = st) := by
  unfold applyHexFrame at *
  by_cases hl : hex.length ≠ st.numLeds * 6
  · rw [if_pos hl]
    exact ⟨rfl, rfl, fun _ => rfl⟩
  · rw [if_neg hl] at h ⊢
    rcases ha : applyLoop hex st.leds 0 st.numLeds with ⟨ok, l⟩
    rw [ha] at h
    cases ok
    · exact ⟨rfl, rfl, fun hc => absurd hc hl⟩
    · exact absurd h (by simp)

/-! ## Claim theorems -/

/-- Claim C8: `clamp8` sends every negative input to 0 and every input
above 255 to 255, and it is idempotent on all integers. -/
theorem clamp8_spec (c : Int) :
    (c < 0 → clamp8 c = 0) ∧ (c > 255 → clamp8 c = 255) ∧ clamp8 (clamp8 c) = clamp8 c := by
  refine ⟨fun h => ?_, fun h => ?_, ?_⟩ <;> unfold clamp8 <;> split_ifs <;> omega

/-- Witness for C8 at concrete inputs `-7`, `300` and `123`. -/
theorem clamp8_spec_witness :
    clamp8 (-7) = 0 ∧ clamp8 300 = 255 ∧ clamp8 (clamp8 123) = clamp8 123 :=
  ⟨(clamp8_spec (-7)).1 (by decide), (clamp8_spec 300).2.1 (by decide),
    (clamp8_spec 123).2.2⟩

/-- Claim C4 counterexample: on a 3-LED strip the space-separated form
`FRAME FF0000 00FF00 0000FF` from the spec's scenario has 20 payload
characters, not `3 * 6 = 18`, so the code rejects it with the usage
error and changes nothing - the reply is not `OK`. -/
theorem frame_spaced_payload_cex :
    runCommand stC4 "FRAME FF0000 00FF00 0000FF" =
      (stC4, "ERR usage: FRAME <hex rgb payload of length NUM_LEDS*6>")
    ∧ (runCommand stC4 "FRAME FF0000 00FF00 0000FF").2 ≠ "OK" := by decide

/-- Claim C4 (amended): on a 3-LED strip the contiguous payload
`FRAME FF000000FF000000FF` sets pixel 0 to (255,0,0), pixel 1 to
(0,255,0), pixel 2 to (0,0,255), flushes, and replies `OK`; the
space-separated form of the scenario is rejected. -/
theorem frame_contiguous_hex_ok :
    runCommand stC4 "FRAME FF000000FF000000FF" =
      ({ numLeds := 3, leds := [⟨255, 0, 0⟩, ⟨0, 255, 0⟩, ⟨0, 0, 255⟩], brightness := 32,
         strip := [⟨255, 0, 0⟩, ⟨0, 255, 0⟩, ⟨0, 0, 255⟩] }, "OK") := by decide

/-- Claim C1 counterexample: a `FRAME` payload of the correct length
(210 characters for 35 LEDs) whose first pixel group `010203` is valid
hex and whose remainder is `Z`s fails to decode, yet pixel 0 has been
written - the LED buffer after the failed command differs from the
buffer before it. -/
theorem frame_mixed_state_cex :
    (runCommand st0 badFrame).2 = "ERR usage: FRAME <hex rgb payload of length NUM_LEDS*6>"
    ∧ (runCommand st0 badFrame).1.leds ≠ st0.leds
    ∧ (runCommand st0 badFrame).1.strip = st0.strip := by
  set_option maxRecDepth 100000 in decide

/-- Claim C1 (amended): a failed `FRAME` command replies with the usage
error, never flushes (the strip keeps its previous contents) and never
touches the brightness; a payload of the wrong length changes nothing
at all, but a correct-length payload with a non-hex character may leave
the pixels decoded before the bad character already written. -/
theorem frame_decode_failure_effects (st : DevState) (raw : String) (t : List Char)
    (hcmd : procL raw.data = "FRAME ".data ++ t)
    (hfail : (applyHexFrame (trimL t) st).1 = false) :
    runCommand st raw = ((applyHexFrame (trimL t) st).2,
        "ERR usage: FRAME <hex rgb payload of length NUM_LEDS*6>")
    ∧ (applyHexFrame (trimL t) st).2.strip = st.strip
    ∧ (applyHexFrame (trimL t) st).2.brightness = st.brightness
    ∧ ((trimL t).length ≠ st.numLeds * 6 → (applyHexFrame (trimL t) st).2 = st) := by
  obtain ⟨h1, h2, h3⟩ := applyHexFrame_false (trimL t) st hfail
  refine ⟨?_, h1, h2, h3⟩
  rw [runCommand_eq_dispatch, hcmd, dispatch_frame]
  rcases happ : applyHexFrame (trimL t) st with ⟨ok, st2⟩
  rw [happ] at hfail
  cases ok
  · rfl
  · exact absurd hfail (by simp)

/-- Witness for C1's amended theorem: `FRAME FF00` (wrong length for 35
LEDs) fails and leaves the state entirely unchanged. -/
theorem frame_decode_failure_effects_witness :
    runCommand st0 "FRAME FF00" = (st0,
        "ERR usage: FRAME <hex rgb payload of length NUM_LEDS*6>")
    ∧ (applyHexFrame (trimL "FF00".data) st0).2 = st0 := by
  have h := frame_decode_failure_effects st0 "FRAME FF00" "FF00".data (by decide) (by decide)
  have hwl : (applyHexFrame (trimL "FF00".data) st0).2 = st0 := h.2.2.2 (by decide)
  exact ⟨by rw [h.1, hwl], hwl⟩

/-- Claim C3 counterexample: `BRIGHT ABC` - a recognized keyword with a
non-numeric argument - answers the keyword's usage error, not
`ERR unknown command` as the claim states. -/
theorem bright_nonnumeric_cex :
    runCommand st0 "BRIGHT ABC" = (st0, "ERR usage: BRIGHT <0-255>")
    ∧ ("ERR usage: BRIGHT <0-255>" : String) ≠ "ERR unknown command" := by decide

/-- Claim C3 (amended): a line whose trimmed, upper-cased form starts
with a recognized keyword followed by a space but whose arguments fail
the numeric scan answers that keyword's specific `ERR usage: ...` line,
with the state unchanged; only the bare keyword without the trailing
space (and hence without arguments) falls through to
`ERR unknown command`. -/
theorem keyword_usage_errors (st : DevState) (raw : String) (t : List Char) :
    (procL raw.data = "BRIGHT ".data ++ t → scanList 1 (' ' :: t) = none →
      runCommand st raw = (st, "ERR usage: BRIGHT <0-255>"))
    ∧ (procL raw.data = "FILL ".data ++ t → scanList 3 (' ' :: t) = none →
      runCommand st raw = (st, "ERR usage: FILL <r> <g> <b>"))
    ∧ (procL raw.data = "SET ".data ++ t → scanList 4 (' ' :: t) = none →
      runCommand st raw = (st, "ERR usage: SET <index> <r> <g> <b>"))
    ∧ (procL raw.data = "SETN ".data ++ t → scanList 4 (' ' :: t) = none →
      runCommand st raw = (st, "ERR usage: SETN <index> <r> <g> <b>"))
    ∧ (procL raw.data = "BRIGHT".data → runCommand st raw = (st, "ERR unknown command")) := by
  refine ⟨fun hc hs => ?_, fun hc hs => ?_, fun hc hs => ?_, fun hc hs => ?_, fun hc => ?_⟩
  · rw [runCommand_eq_dispatch, hc, dispatch_bright_none st t hs]
  · rw [runCommand_eq_dispatch, hc, dispatch_fill_none st t hs]
  · rw [runCommand_eq_dispatch, hc, dispatch_set_none st t hs]
  · rw [runCommand_eq_dispatch, hc, dispatch_setn_none st t hs]
  · rw [runCommand_eq_dispatch, hc]
    rfl

/-- Witness for C3's amended theorem at `BRIGHT ABC` and bare `BRIGHT`. -/
theorem keyword_usage_errors_witness :
    runCommand st0 "BRIGHT ABC" = (st0, "ERR usage: BRIGHT <0-255>")
    ∧ runCommand st0 "BRIGHT" = (st0, "ERR unknown command") :=
  ⟨(keyword_usage_errors st0 "BRIGHT ABC" "ABC".data).1 (by decide) (by decide),
    (keyword_usage_errors st0 "BRIGHT" "ABC".data).2.2.2.2 (by decide)⟩

theorem readLine_overflow (max : Nat) : ∀ (n : Nat) (buf rest : List Char),
    buf.length + n = max + 1 → 1 ≤ n →
    readLine max buf (List.replicate n 'A' ++ rest) =
      ((readLine max [] rest).1, (readLine max [] rest).2.1, (readLine max [] rest).2.2.1,
        "line too long" :: (readLine max [] rest).2.2.2) := by
  intro n
  induction n with
  | zero => omega
  | succ m ih =>
    intro buf rest hlen _
    rw [List.replicate_succ, List.cons_append]
    show readLine max buf ('A' :: (List.replicate m 'A' ++ rest)) = _
    rw [readLine]
    simp only [if_neg (by decide : ¬ ('A' : Char) = '\r'),
      if_neg (by decide : ¬ ('A' : Char) = '\n')]
    by_cases hm : m = 0
    · subst hm
      have hov : max < (buf ++ ['A']).length := by simp; omega
      rw [if_pos hov]
      simp
    · have hle : ¬ max < (buf ++ ['A']).length := by simp; omega
      rw [if_neg hle]
      have := ih (buf ++ ['A']) rest (by simp; omega) (by omega)
      simpa using this

/-- Claim C5 (code bug): a serial line of `MAX_COMMAND_CHARS + 1`
characters followed by `PING` and a newline does produce one
`ERR line too long`, but the `PING` suffix survives the buffer reset,
is returned by `readLine` as a completed line, and the parser then
executes it and replies `OK` - contradicting the claim that no part of
an oversized line ever reaches the parser. -/
theorem oversized_line_suffix_executed :
    readLine MAX_COMMAND_CHARS [] (List.replicate (MAX_COMMAND_CHARS + 1) 'A' ++ "PING\n".data)
      = (some "PING".data, [], [], ["line too long"])
    ∧ runCommand st0 "PING" = (st0, "OK") := by
  constructor
  · show readLine 8192 [] (List.replicate 8193 'A' ++ "PING\n".data) = _
    rw [readLine_overflow 8192 8193 [] "PING\n".data (by decide) (by decide)]
    decide
  · decide

/-- Claim C6: a `SET` or `SETN` line whose four arguments scan as
integers `i r g b` answers `ERR index out of range` and leaves the
state untouched when `i` is negative or at least `ledCount`, and writes
the clamped color to pixel `i` (brightness untouched) with reply `OK`
when `i` is in range. -/
theorem set_index_validation (st : DevState) (raw : String) (t rest : List Char)
    (i r g b : Int)
    (hscan : scanList 4 (' ' :: t) = some ([i, r, g, b], rest))
    (hkw : procL raw.data = "SET ".data ++ t ∨ procL raw.data = "SETN ".data ++ t) :
    ((i < 0 ∨ (st.numLeds : Int) ≤ i) → runCommand st raw = (st, "ERR index out of range"))
    ∧ (0 ≤ i → i < (st.numLeds : Int) →
        (runCommand st raw).1.leds =
          st.leds.set i.toNat ⟨(clamp8 r).toNat, (clamp8 g).toNat, (clamp8 b).toNat⟩
        ∧ (runCommand st raw).1.brightness = st.brightness
        ∧ (runCommand st raw).2 = "OK") := by
  rcases hkw with hc | hc
  · rw [runCommand_eq_dispatch, hc, dispatch_set_some st t i r g b rest hscan]
    constructor
    · intro hr
      rw [if_pos hr]
    · intro h0 hlt
      rw [if_neg (by omega)]
      exact ⟨rfl, rfl, rfl⟩
  · rw [runCommand_eq_dispatch, hc, dispatch_setn_some st t i r g b rest hscan]
    constructor
    · intro hr
      rw [if_pos hr]
    · intro h0 hlt
      rw [if_neg (by omega)]
      exact ⟨rfl, rfl, rfl⟩

/-- Witness for C6: `SET 99 1 2 3` on the 35-LED strip is rejected with
the state unchanged; `SET 1 300 -5 10` writes the clamped color
(255,0,10) to pixel 1 and replies `OK`. -/
theorem set_index_validation_witness :
    runCommand st0 "SET 99 1 2 3" = (st0, "ERR index out of range")
    ∧ (runCommand st0 "SET 1 300 -5 10").1.leds =
        (List.replicate 35 (⟨0, 0, 0⟩ : RGB)).set 1 ⟨255, 0, 10⟩
    ∧ (runCommand st0 "SET 1 300 -5 10").2 = "OK" := by
  have h1 := (set_index_validation st0 "SET 99 1 2 3" "99 1 2 3".data [] 99 1 2 3
    (by decide) (Or.inl (by decide))).1 (by decide)
  have h2 := (set_index_validation st0 "SET 1 300 -5 10" "1 300 -5 10".data [] 1 300 (-5) 10
    (by decide) (Or.inl (by decide))).2 (by decide) (by decide)
  exact ⟨h1, h2.1, h2.2.2⟩

/-- Claim C7: with a valid index, `SET i r g b` writes pixel `i` and
flushes immediately (the strip equals the new buffer), while
`SETN i r g b` writes the buffer but leaves the strip as it was; a
subsequent `SHOW` flushes, after which the state equals the one the
`SET` form produces. -/
theorem set_setn_flush_semantics (st : DevState) (rawS rawN : String) (t rest : List Char)
    (i r g b : Int)
    (hscan : scanList 4 (' ' :: t) = some ([i, r, g, b], rest))
    (hS : procL rawS.data = "SET ".data ++ t)
    (hN : procL rawN.data = "SETN ".data ++ t)
    (h0 : 0 ≤ i) (hlt : i < (st.numLeds : Int)) :
    runCommand st rawS =
      ({ st with
          leds := st.leds.set i.toNat ⟨(clamp8 r).toNat, (clamp8 g).toNat, (clamp8 b).toNat⟩,
          strip := st.leds.set i.toNat ⟨(clamp8 r).toNat, (clamp8 g).toNat, (clamp8 b).toNat⟩ },
        "OK")
    ∧ runCommand st rawN =
      ({ st with
          leds := st.leds.set i.toNat ⟨(clamp8 r).toNat, (clamp8 g).toNat, (clamp8 b).toNat⟩ },
        "OK")
    ∧ (runCommand st rawN).1.strip = st.strip
    ∧ runCommandL (runCommand st rawN).1 "SHOW".data = ((runCommand st rawS).1, "OK") := by
  have hSet : runCommand st rawS =
      ({ st with
          leds := st.leds.set i.toNat ⟨(clamp8 r).toNat, (clamp8 g).toNat, (clamp8 b).toNat⟩,
          strip := st.leds.set i.toNat ⟨(clamp8 r).toNat, (clamp8 g).toNat, (clamp8 b).toNat⟩ },
        "OK") := by
    rw [runCommand_eq_dispatch, hS, dispatch_set_some st t i r g b rest hscan,
      if_neg (by omega)]
    rfl
  have hSetn : runCommand st rawN =
      ({ st with
          leds := st.leds.set i.toNat ⟨(clamp8 r).toNat, (clamp8 g).toNat, (clamp8 b).toNat⟩ },
        "OK") := by
    rw [runCommand_eq_dispatch, hN, dispatch_setn_some st t i r g b rest hscan,
      if_neg (by omega)]
  refine ⟨hSet, hSetn, by rw [hSetn], ?_⟩
  show dispatchCmd (runCommand st rawN).1 "SHOW".data = _
  rw [dispatch_show, hSetn, hSet]
  rfl

/-- Witness for C7 at `SET 1 2 3 4` / `SETN 1 2 3 4` on the 35-LED
strip. -/
theorem set_setn_flush_semantics_witness :
    runCommand st0 "SET 1 2 3 4" =
      ({ st0 with
          leds := st0.leds.set 1 ⟨2, 3, 4⟩,
          strip := st0.leds.set 1 ⟨2, 3, 4⟩ }, "OK")
    ∧ runCommand st0 "SETN 1 2 3 4" = ({ st0 with leds := st0.leds.set 1 ⟨2, 3, 4⟩ }, "OK")
    ∧ (runCommand st0 "SETN 1 2 3 4").1.strip = st0.strip
    ∧ runCommandL (runCommand st0 "SETN 1 2 3 4").1 "SHOW".data =
        ((runCommand st0 "SET 1 2 3 4").1, "OK") :=
  set_setn_flush_semantics st0 "SET 1 2 3 4" "SETN 1 2 3 4" "1 2 3 4".data [] 1 2 3 4
    (by decide) (by decide) (by decide) (by decide) (by decide)

theorem parseHexByte_map_upChar (s : List Char) (o : Nat) :
    parseHexByte (s.map upChar) o = parseHexByte s o := by
  unfold parseHexByte
  rw [List.length_map]
  by_cases h : s.length ≤ o + 1
  · rw [if_pos h, if_pos h]
  · rw [if_neg h, if_neg h]
    have e1 : (s.map upChar).getD o ' ' = upChar (s.getD o ' ') :=
      List.getD_map s ' ' upChar
    have e2 : (s.map upChar).getD (o + 1) ' ' = upChar (s.getD (o + 1) ' ') :=
      List.getD_map s ' ' upChar
    rw [e1, e2, hexNibble_upChar, hexNibble_upChar]

theorem applyLoop_map_upChar (hex : List Char) : ∀ (fuel : Nat) (leds : List RGB) (i : Nat),
    applyLoop (hex.map upChar) leds i fuel = applyLoop hex leds i fuel := by
  intro fuel
  induction fuel with
  | zero => intro leds i; rfl
  | succ f ih =>
    intro leds i
    show (match parseHexByte (hex.map upChar) (i * 6), parseHexByte (hex.map upChar) (i * 6 + 2),
            parseHexByte (hex.map upChar) (i * 6 + 4) with
          | some r, some g, some b => applyLoop (hex.map upChar) (leds.set i ⟨r, g, b⟩) (i + 1) f
          | _, _, _ => (false, leds)) =
        (match parseHexByte hex (i * 6), parseHexByte hex (i * 6 + 2),
            parseHexByte hex (i * 6 + 4) with
          | some r, some g, some b => applyLoop hex (leds.set i ⟨r, g, b⟩) (i + 1) f
          | _, _, _ => (false, leds))
    rw [parseHexByte_map_upChar, parseHexByte_map_upChar, parseHexByte_map_upChar]
    cases parseHexByte hex (i * 6) with
    | none => rfl
    | some r =>
      cases parseHexByte hex (i * 6 + 2) with
      | none => rfl
      | some g =>
        cases parseHexByte hex (i * 6 + 4) with
        | none => rfl
        | some b => exact ih (leds.set i ⟨r, g, b⟩) (i + 1)

theorem applyHexFrame_map_upChar (hex : List Char) (st : DevState) :
    applyHexFrame (hex.map upChar) st = applyHexFrame hex st := by
  unfold applyHexFrame
  rw [List.length_map, applyLoop_map_upChar]

theorem rtrimL_nil_trimL {q : List Char} (h : rtrimL q = []) : trimL q = [] := by
  have hrev : q.reverse.dropWhile isSpc = [] := by
    have : (q.reverse.dropWhile isSpc).reverse = [] := h
    simpa using this
  have hall : ∀ x ∈ q, isSpc x = true := by
    intro x hx
    exact (List.dropWhile_eq_nil_iff.mp hrev) x (List.mem_reverse.mpr hx)
  have hdw : q.dropWhile isSpc = [] := List.dropWhile_eq_nil_iff.mpr hall
  show rtrimL (q.dropWhile isSpc) = []
  rw [hdw]
  rfl

theorem procL_frame (q : List Char) :
    procL ("FRAME ".data ++ q) =
      if rtrimL q = [] then "FRAME".data else "FRAME ".data ++ (rtrimL q).map upChar := by
  have hdw : ("FRAME ".data ++ q).dropWhile isSpc = "FRAME ".data ++ q := by
    show List.dropWhile isSpc ('F' :: ("RAME ".data ++ q)) = _
    rw [List.dropWhile_cons, show isSpc 'F' = false from rfl]
    simp
  have h1 : trimL ("FRAME ".data ++ q) = rtrimL ("FRAME ".data ++ q) := by
    show rtrimL (("FRAME ".data ++ q).dropWhile isSpc) = _
    rw [hdw]
  have h2 : rtrimL ("FRAME ".data ++ q) =
      if rtrimL q = [] then "FRAME".data else "FRAME ".data ++ rtrimL q := by
    show ((("FRAME ".data ++ q).reverse).dropWhile isSpc).reverse = _
    rw [List.reverse_append, List.dropWhile_append]
    by_cases hq : q.reverse.dropWhile isSpc = []
    · have hq2 : rtrimL q = [] := by
        show (q.reverse.dropWhile isSpc).reverse = []
        rw [hq]
        rfl
      rw [if_pos hq2]
      rw [show (q.reverse.dropWhile isSpc).isEmpty = true by simp [hq]]
      rfl
    · have hq2 : rtrimL q ≠ [] := by
        show (q.reverse.dropWhile isSpc).reverse ≠ []
        simpa using hq
      rw [if_neg hq2]
      rw [show (q.reverse.dropWhile isSpc).isEmpty = false by simpa [List.isEmpty_iff] using hq]
      show (q.reverse.dropWhile isSpc ++ "FRAME ".data.reverse).reverse = _
      rw [List.reverse_append, List.reverse_reverse]
      rfl
  unfold procL
  rw [h1, h2]
  by_cases hq : rtrimL q = []
  · rw [if_pos hq, if_pos hq]
    rfl
  · rw [if_neg hq, if_neg hq, List.map_append]
    rfl

/-- Claim C2 counterexample: for the body `ZZ` both paths fail, but the
HTTP handler replies `ERR invalid frame payload` while the command line
`FRAME ZZ` replies the usage error - the response texts differ, so the
claim's "same response text" is false. -/
theorem frame_post_response_cex :
    (handleFramePost st0 "ZZ".data).2 ≠ (runCommand st0 ("FRAME " ++ "ZZ")).2
    ∧ (handleFramePost st0 "ZZ".data).2 = "ERR invalid frame payload"
    ∧ (runCommand st0 ("FRAME " ++ "ZZ")).2 =
        "ERR usage: FRAME <hex rgb payload of length NUM_LEDS*6>" := by decide

/-- Claim C2 (amended): for a strip with at least one LED, an HTTP POST
to `/frame` with body `p` and the command line `FRAME p` produce the
same device state (LED buffer, brightness and flushed strip), and one
succeeds with reply `OK` exactly when the other does; on failure,
however, the two transports reply with different `ERR` texts. -/
theorem frame_post_equiv (st : DevState) (p : String) (hn : 0 < st.numLeds) :
    (handleFramePost st p.data).1 = (runCommand st ("FRAME " ++ p)).1
    ∧ ((handleFramePost st p.data).2 = "OK" ↔ (runCommand st ("FRAME " ++ p)).2 = "OK") := by
  have hrun : runCommand st ("FRAME " ++ p) = dispatchCmd st (procL ("FRAME ".data ++ p.data)) := by
    rw [runCommand_eq_dispatch, String.data_append]
  rw [procL_frame] at hrun
  by_cases hq : rtrimL p.data = []
  · rw [if_pos hq] at hrun
    have htr : trimL p.data = [] := rtrimL_nil_trimL hq
    have hhttp : handleFramePost st p.data = (st, "ERR invalid frame payload") := by
      unfold handleFramePost
      rw [htr]
      show (match applyHexFrame [] st with
            | (true, st2) => (st2, "OK")
            | (false, st2) => (st2, "ERR invalid frame payload")) = _
      unfold applyHexFrame
      rw [if_pos (by simp; omega)]
    have hcmd : dispatchCmd st "FRAME".data = (st, "ERR unknown command") := rfl
    rw [hhttp, hrun, hcmd]
    refine ⟨rfl, ?_⟩
    show ("ERR invalid frame payload" : String) = "OK" ↔ ("ERR unknown command" : String) = "OK"
    decide
  · rw [if_neg hq, dispatch_frame] at hrun
    have hpay : trimL ((rtrimL p.data).map upChar) = (trimL p.data).map upChar := by
      rw [trimL_map_upChar, trimL_rtrimL]
    rw [hpay, applyHexFrame_map_upChar] at hrun
    unfold handleFramePost
    rcases happ : applyHexFrame (trimL p.data) st with ⟨ok, st2⟩
    rw [happ] at hrun
    cases ok
    · rw [hrun]
      refine ⟨rfl, ?_⟩
      show ("ERR invalid frame payload" : String) = "OK" ↔
        ("ERR usage: FRAME <hex rgb payload of length NUM_LEDS*6>" : String) = "OK"
      decide
    · rw [hrun]
      exact ⟨rfl, Iff.rfl⟩

/-- Witness for C2's amended theorem at the 35-LED state and body `ZZ`. -/
theorem frame_post_equiv_witness :
    (handleFramePost st0 "ZZ".data).1 = (runCommand st0 ("FRAME " ++ "ZZ")).1
    ∧ ((handleFramePost st0 "ZZ".data).2 = "OK" ↔ (runCommand st0 ("FRAME " ++ "ZZ")).2 = "OK") :=
  frame_post_equiv st0 "ZZ" (by decide)

/-- Claim C9: with no Wi-Fi credentials configured (empty SSID) the
startup association attempt returns immediately without trying, and
however many loop iterations run and whatever the link environment
does, the connectivity state stays at its initial Disconnected value
(never begun, never connected, HTTP server never started), while the
serial lines delivered in those iterations are processed exactly as
the pure serial semantics `serialFold` processes them. -/
theorem no_credentials_disconnected_forever (inps : List LoopIn) (st : DevState) :
    (runLoop [] inps netInit st).1 = netInit
    ∧ (runLoop [] inps netInit st).2.1 = (serialFold st (inps.filterMap LoopIn.lineIn)).1
    ∧ (runLoop [] inps netInit st).2.2 = (serialFold st (inps.filterMap LoopIn.lineIn)).2
    ∧ (∀ o : Bool, connectWifiStation [] o netInit = (false, netInit)) := by
  induction inps generalizing st with
  | nil => exact ⟨rfl, rfl, rfl, fun o => rfl⟩
  | cons inp inps ih =>
    cases hln : inp.lineIn with
    | none =>
      have hone : loopIter [] inp netInit st = (netInit, st, none) := by
        unfold loopIter
        rw [hln]
        rfl
      have hrl : runLoop [] (inp :: inps) netInit st =
          ((runLoop [] inps netInit st).1, (runLoop [] inps netInit st).2.1,
            (runLoop [] inps netInit st).2.2) := by
        show (match loopIter [] inp netInit st with
              | (ns2, st2, out) =>
                ((runLoop [] inps ns2 st2).1, (runLoop [] inps ns2 st2).2.1,
                  out.toList ++ (runLoop [] inps ns2 st2).2.2)) = _
        rw [hone]
        rfl
      have hfm : (inp :: inps).filterMap LoopIn.lineIn = inps.filterMap LoopIn.lineIn := by
        simp [List.filterMap_cons, hln]
      rw [hrl, hfm]
      exact ih st
    | some l =>
      have hone : loopIter [] inp netInit st =
          (netInit, (runCommandL st l).1, some (runCommandL st l).2) := by
        unfold loopIter
        rw [hln]
        rfl
      have hrl : runLoop [] (inp :: inps) netInit st =
          ((runLoop [] inps netInit (runCommandL st l).1).1,
           (runLoop [] inps netInit (runCommandL st l).1).2.1,
           (runCommandL st l).2 :: (runLoop [] inps netInit (runCommandL st l).1).2.2) := by
        show (match loopIter [] inp netInit st with
              | (ns2, st2, out) =>
                ((runLoop [] inps ns2 st2).1, (runLoop [] inps ns2 st2).2.1,
                  out.toList ++ (runLoop [] inps ns2 st2).2.2)) = _
        rw [hone]
        rfl
      have hfm : (inp :: inps).filterMap LoopIn.lineIn = l :: inps.filterMap LoopIn.lineIn := by
        simp [List.filterMap_cons, hln]
      obtain ⟨a, b, c, _⟩ := ih (runCommandL st l).1
      rw [hrl, hfm]
      exact ⟨a, b, by rw [c]; rfl, fun o => rfl⟩

/-- Claim C10: whatever the state and the input line (empty and
whitespace-only lines included), `runCommand` replies with exactly
`OK`, or a line starting with `OK `, or a line starting with `ERR `. -/
theorem response_wellformed (st : DevState) (raw : String) :
    (runCommand st raw).2 = "OK"
    ∨ startsWithL "OK ".data (runCommand st raw).2.data = true
    ∨ startsWithL "ERR ".data (runCommand st raw).2.data = true := by
  rw [runCommand_eq_dispatch]
  generalize procL raw.data = cmd
  unfold dispatchCmd
  repeat' split
  all_goals first
    | exact Or.inl rfl
    | exact Or.inr (Or.inl rfl)
    | exact Or.inr (Or.inr rfl)

end SmartWall
